import Mathlib

/-!
# Verification of the ratchet Slack ingestion service

Shallow embedding of `app/models.py` and `app/slack_ingestion_service.py`.

Modelling conventions:
* Slack timestamps are decimal strings parsed with `float(...)` in the code;
  Python floats on real Slack timestamps behave as an ordered field with `max`,
  so we model timestamps as `ℚ`.  The `thread_ts` anchors are compared only for
  equality of canonical timestamp strings, which coincides with equality of
  their numeric values, so they are modelled as `ℚ` as well.
* Python dict `.get` with a default is modelled with `Option` and `getD`.
* The SQLAlchemy session is modelled as an explicit record of tables with
  append-only id counters; `db.commit()` is implicit in the state threading.
* Network calls (`conversations_history`, `conversations_replies`,
  `conversations_info`) are modelled as inputs to the functions that await
  them; a `SlackApiError` raised by the history call is an `apiError` input
  carrying `str(e)`.
-/

namespace Ratchet

/-! ## Python string primitives, structurally recursive for kernel evaluation -/

/-- Does `pat` occur at the head of `s`?  (helper for substring search) -/
def charsStartWith : List Char → List Char → Bool
  | [], _ => true
  | _ :: _, [] => false
  | p :: ps, c :: cs => p == c && charsStartWith ps cs

/-- Does `pat` occur anywhere in `s`?  (Python `pat in s`) -/
def charsHaveSub (pat : List Char) : List Char → Bool
  | [] => charsStartWith pat []
  | c :: cs => charsStartWith pat (c :: cs) || charsHaveSub pat cs

/-- Python `pat in s` on strings. -/
def strHasSub (s pat : String) : Bool := charsHaveSub pat.data s.data

/-- Python `str.lower()` (ASCII case, which is all the code relies on). -/
def pyLower (s : String) : String := ⟨s.data.map Char.toLower⟩

/-- Python whitespace as used by `str.strip()`. -/
def pyIsWs (c : Char) : Bool :=
  c == ' ' || c == '\t' || c == '\n' || c == '\r' || c == '\x0b' || c == '\x0c'

/-- Python `str.strip()`. -/
def pyStrip (s : String) : String :=
  ⟨((s.data.dropWhile pyIsWs).reverse.dropWhile pyIsWs).reverse⟩

/-- Helper for Python `str.split(sep)` with a one-character separator. -/
def splitCharAux (sep : Char) : List Char → List Char → List String
  | [], acc => [⟨acc.reverse⟩]
  | c :: cs, acc =>
    if c == sep then ⟨acc.reverse⟩ :: splitCharAux sep cs []
    else splitCharAux sep cs (c :: acc)

/-- Python `s.split(",")` (note: `"".split(",") == [""]`). -/
def pySplitCommas (s : String) : List String := splitCharAux ',' s.data []

/-! ## Data model (`app/models.py`) -/

/-- Enum `ActivityType`. -/
inductive ActivityType
  | ALERT
  | BOT_MESSAGE
  | HUMAN_THREAD
deriving DecidableEq, Repr

/-- Enum `ActivityStatus`. -/
inductive ActivityStatus
  | FIRED
  | DEBUGGING
  | MITIGATED
  | ONGOING
  | RESOLVED
deriving DecidableEq, Repr

/-- One row of the `teams` table (columns relevant to ingestion). -/
structure Team where
  id : Nat
  name : String
  slack_channel_ids : List String
deriving DecidableEq, Repr

/-- One row of the `channels` table (columns relevant to ingestion). -/
structure Channel where
  id : Nat
  slack_channel_id : String
  name : String
  team_id : Nat
  monitored_bot_accounts : List String
deriving DecidableEq, Repr

/-- One row of the `activities` table. -/
structure Activity where
  id : Nat
  team_id : Nat
  activity_type : ActivityType
  status : ActivityStatus
  content : String
  timestamp : ℚ
  parent_activity_id : Option Nat
deriving DecidableEq, Repr

/-- One row of the `channel_processing_status` table. -/
structure ChannelProcessingStatus where
  slack_channel_id : String
  last_processed_timestamp : ℚ
deriving DecidableEq, Repr

/-- The database session state: the four tables plus autoincrement counters. -/
structure Db where
  teams : List Team
  channels : List Channel
  activities : List Activity
  channel_statuses : List ChannelProcessingStatus
  next_team_id : Nat
  next_channel_id : Nat
  next_activity_id : Nat
deriving DecidableEq, Repr

/-- The empty database. -/
def Db.empty : Db := ⟨[], [], [], [], 1, 1, 1⟩

/-- Function `create_team(db, name, slack_channel_id)` (models.py). -/
def create_team (db : Db) (name : String) (slack_channel_id : String) : Team × Db :=
  let new_team : Team := ⟨db.next_team_id, name, [slack_channel_id]⟩
  (new_team,
    { db with teams := db.teams ++ [new_team], next_team_id := db.next_team_id + 1 })

/-- Function `create_activity(db, team_id, activity_type, status, content, timestamp,
parent_activity_id)` (models.py).  The ingestion paths always pass an explicit
timestamp, so the `timestamp or datetime.utcnow()` default is not modelled. -/
def create_activity (db : Db) (team_id : Nat) (activity_type : ActivityType)
    (status : ActivityStatus) (content : String) (timestamp : ℚ)
    (parent_activity_id : Option Nat) : Activity × Db :=
  let new_activity : Activity :=
    ⟨db.next_activity_id, team_id, activity_type, status, content, timestamp,
      parent_activity_id⟩
  (new_activity,
    { db with activities := db.activities ++ [new_activity],
              next_activity_id := db.next_activity_id + 1 })

/-- Lookup `get_team_by_slack_channel(db, slack_channel_id)`: first team whose
`slack_channel_ids` array contains the id (SQLAlchemy `.any(...)` + `.first()`). -/
def get_team_by_slack_channel (db : Db) (slack_channel_id : String) : Option Team :=
  db.teams.find? (fun t => slack_channel_id ∈ t.slack_channel_ids)

/-- Query `db.query(Team).filter(Team.name == team_name).first()`. -/
def find_team_by_name (db : Db) (team_name : String) : Option Team :=
  db.teams.find? (fun t => t.name == team_name)

/-- The stored status row for a channel, if any. -/
def findStatus (db : Db) (cid : String) : Option ChannelProcessingStatus :=
  db.channel_statuses.find? (fun cs => cs.slack_channel_id == cid)

/-- Function `get_or_create_channel_status(db, slack_channel_id)` (models.py): returns the
existing row or inserts one with `last_processed_timestamp = 0`. -/
def get_or_create_channel_status (db : Db) (cid : String) :
    ChannelProcessingStatus × Db :=
  match findStatus db cid with
  | some cs => (cs, db)
  | none =>
    let cs : ChannelProcessingStatus := ⟨cid, 0⟩
    (cs, { db with channel_statuses := db.channel_statuses ++ [cs] })

/-- Function `update_channel_status(db, slack_channel_id, new_timestamp)` (models.py):
get-or-create the row, then assign `last_processed_timestamp = new_timestamp`
unconditionally. -/
def update_channel_status (db : Db) (cid : String) (new_timestamp : ℚ) : Db :=
  let db := (get_or_create_channel_status db cid).2
  { db with channel_statuses :=
      db.channel_statuses.map (fun cs =>
        if cs.slack_channel_id == cid then
          { cs with last_processed_timestamp := new_timestamp }
        else cs) }

/-- The checkpoint the polling loop would read: the stored value, 0 if no row. -/
def getLatest (db : Db) (cid : String) : ℚ :=
  ((findStatus db cid).map (·.last_processed_timestamp)).getD 0

/-- The stored checkpoint value, `none` if the row does not exist. -/
def statusVal (db : Db) (cid : String) : Option ℚ :=
  (findStatus db cid).map (·.last_processed_timestamp)

/-! ## Slack messages and the ingestion service (`app/slack_ingestion_service.py`) -/

/-- A Slack message dict, restricted to the keys the service reads.
`bot_profile_name` models `msg.get("bot_profile", {}).get("name")`;
`text` models the optional `"text"` key (read with default `""`);
`thread_ts` is `some` iff the `"thread_ts"` key is present;
`reply_count` models `msg.get("reply_count", 0)`. -/
structure Msg where
  bot_id : Option String
  bot_profile_name : Option String
  text : Option String
  ts : ℚ
  thread_ts : Option ℚ
  reply_count : Nat
deriving DecidableEq, Repr

/-- Python `msg.get("text", "")`. -/
def Msg.getText (msg : Msg) : String := msg.text.getD ""

/-- Python truthiness of `msg.get("bot_id")`: present and non-empty. -/
def Msg.botIdTruthy (msg : Msg) : Bool :=
  match msg.bot_id with
  | some b => !(b == "")
  | none => false

/-- Filter `should_we_persist_message(msg, monitored_bot_accounts)`:
`msg.get("bot_id") is not None and msg.get("bot_profile", {}).get("name") in
monitored_bot_accounts`.  A missing `bot_profile` name is Python `None`,
which is never a member of the (string) account list. -/
def should_we_persist_message (msg : Msg) (monitored_bot_accounts : List String) :
    Bool :=
  msg.bot_id.isSome &&
    (match msg.bot_profile_name with
     | some n => monitored_bot_accounts.contains n
     | none => false)

/-- The classification branch of `determine_and_create_activity`:
`"alert" in msg.get("text", "").lower()` first, then the truthiness of
`msg.get("bot_id")`, else human. -/
def classify (msg : Msg) : ActivityType × ActivityStatus :=
  if strHasSub (pyLower msg.getText) "alert" then
    (ActivityType.ALERT, ActivityStatus.FIRED)
  else if msg.botIdTruthy then
    (ActivityType.BOT_MESSAGE, ActivityStatus.ONGOING)
  else
    (ActivityType.HUMAN_THREAD, ActivityStatus.ONGOING)

/-- Function `determine_and_create_activity(db, db_team, msg, parent_activity_id)`:
classify, take `timestamp = datetime.fromtimestamp(float(msg["ts"]))`
(modelled by the numeric value itself), and insert the activity row. -/
def determine_and_create_activity (db : Db) (team_id : Nat) (msg : Msg)
    (parent_activity_id : Option Nat) : Activity × Db :=
  let (activity_type, status) := classify msg
  create_activity db team_id activity_type status msg.getText msg.ts
    parent_activity_id

/-- One message of a `conversations_history` page together with the
`conversations_replies` response the service would receive for it.  Per the
platform contract the first element of `thread` is the parent message itself;
the code drops it (`thread_result["messages"][1:]`).  `thread` is only
consulted when the message started or has a thread. -/
structure PolledMsg where
  msg : Msg
  thread : List Msg
deriving DecidableEq, Repr

/-- The outcome of the awaited `conversations_history` call: a page of
messages, or a `SlackApiError` carrying `str(e)`. -/
inductive HistoryResult
  | ok (messages : List PolledMsg)
  | apiError (errMsg : String)
deriving DecidableEq, Repr

/-- Body of the inner `for thread_msg in thread_messages` loop: create a child
activity linked to the parent and fold the reply timestamp into `newest`. -/
def processThreadMsg (team_id parentId : Nat) (acc : Db × ℚ) (tm : Msg) : Db × ℚ :=
  let (db, newest) := acc
  let (_, db) := determine_and_create_activity db team_id tm (some parentId)
  (db, max newest tm.ts)

/-- Body of the outer `for msg in messages` loop of `fetch_and_store_activities`. -/
def processMsg (channel : Channel) (acc : Db × ℚ) (pm : PolledMsg) : Db × ℚ :=
  let (db, newest) := acc
  let newest := max newest pm.msg.ts
  if should_we_persist_message pm.msg channel.monitored_bot_accounts then
    let (db_activity, db) :=
      determine_and_create_activity db channel.team_id pm.msg none
    if pm.msg.thread_ts.isSome || pm.msg.reply_count > 0 then
      (pm.thread.drop 1).foldl (processThreadMsg channel.team_id db_activity.id)
        (db, newest)
    else (db, newest)
  else (db, newest)

/-- Function `fetch_and_store_activities(client, channel, db)`.  The success path reads
the checkpoint, folds over the page updating `newest` and creating activities,
then stores `newest`.  A `SlackApiError` from the history call is caught: if
`"invalid_ts_oldest" in str(e)` the checkpoint is forced to 0, otherwise
nothing further happens.  In both error cases the function returns normally
(the exception does not propagate). -/
def fetch_and_store_activities (channel : Channel) (hist : HistoryResult)
    (db : Db) : Db :=
  let (channel_status, db) :=
    get_or_create_channel_status db channel.slack_channel_id
  let latest_timestamp := channel_status.last_processed_timestamp
  match hist with
  | HistoryResult.ok messages =>
    let (db, newest_timestamp) :=
      messages.foldl (processMsg channel) (db, latest_timestamp)
    update_channel_status db channel.slack_channel_id newest_timestamp
  | HistoryResult.apiError e =>
    if strHasSub e "invalid_ts_oldest" then
      update_channel_status db channel.slack_channel_id 0
    else db

/-- What happens when the polling loop turns to one channel: either the awaited
work raises a non-Slack exception (caught by the per-channel `except Exception`
with `continue`, before any of the channel's writes), or the history call
resolves to `hist` and `fetch_and_store_activities` runs. -/
inductive ChannelOutcome
  | raise
  | slack (hist : HistoryResult)
deriving DecidableEq, Repr

/-- The `for channel in channels` loop of one pass of `start_slack_ingestion`:
a raising channel is logged and skipped, every other channel is processed. -/
def processChannels (inputs : String → ChannelOutcome) :
    List Channel → Db → Db
  | [], db => db
  | ch :: rest, db =>
    let db' :=
      match inputs ch.slack_channel_id with
      | ChannelOutcome.raise => db
      | ChannelOutcome.slack hist => fetch_and_store_activities ch hist db
    processChannels inputs rest db'

/-- One full polling pass: snapshot `db.query(Channel).all()` and run the loop. -/
def run_ingestion_pass (inputs : String → ChannelOutcome) (db : Db) : Db :=
  processChannels inputs db.channels db

/-! ## Team/channel registry (`get_or_create_team`, `get_or_create_channel`) -/

/-- Replace a team row in place (models the mutated ORM object after commit). -/
def replaceTeam (db : Db) (t : Team) : Db :=
  { db with teams := db.teams.map (fun u => if u.id = t.id then t else u) }

/-- Function `get_or_create_team(db, team_name, channel_id)`: look the team up by name
first; if found, append the channel id when absent.  Only when no team has the
name is the lookup by channel id tried, and only when both fail is a new team
created. -/
def get_or_create_team (db : Db) (team_name channel_id : String) : Team × Db :=
  match find_team_by_name db team_name with
  | some team =>
    if channel_id ∈ team.slack_channel_ids then (team, db)
    else
      let team' := { team with
        slack_channel_ids := team.slack_channel_ids ++ [channel_id] }
      (team', replaceTeam db team')
  | none =>
    match get_team_by_slack_channel db channel_id with
    | some team =>
      -- the found team contains channel_id, so the code's `elif` append
      -- branch is unreachable here; it is kept for fidelity
      if channel_id ∈ team.slack_channel_ids then (team, db)
      else
        let team' := { team with
          slack_channel_ids := team.slack_channel_ids ++ [channel_id] }
        (team', replaceTeam db team')
    | none => create_team db team_name channel_id

/-- Function `get_or_create_channel(db, slack_channel_id, channel_name, team_id)`:
idempotent insert keyed by `slack_channel_id`. -/
def get_or_create_channel (db : Db) (slack_channel_id channel_name : String)
    (team_id : Nat) : Channel × Db :=
  match db.channels.find? (fun c => c.slack_channel_id == slack_channel_id) with
  | some channel => (channel, db)
  | none =>
    let channel : Channel :=
      ⟨db.next_channel_id, slack_channel_id, channel_name, team_id, []⟩
    (channel,
      { db with channels := db.channels ++ [channel],
                next_channel_id := db.next_channel_id + 1 })

/-! ## Live event path and onboarding (`handle_messages`, `handle_onboarding`) -/

/-- The `step` field of an onboarding session. -/
inductive ObStep
  | waiting_for_assist
  | team_name
  | bot_accounts
deriving DecidableEq, Repr

/-- One entry of the `onboarding_state` dict. -/
structure ObState where
  step : ObStep
  thread_ts : ℚ
  team_id : Option Nat
deriving DecidableEq, Repr

/-- The in-memory `onboarding_state` dict, keyed by channel id. -/
abbrev ObMap := List (String × ObState)

/-- Python `channel_id in onboarding_state` / `onboarding_state[channel_id]`. -/
def obLookup (m : ObMap) (cid : String) : Option ObState :=
  ((m : List (String × ObState)).find? (fun e => e.1 == cid)).map (·.2)

/-- Python `onboarding_state[channel_id] = st` (update an existing key in place). -/
def obSet (m : ObMap) (cid : String) (st : ObState) : ObMap :=
  (m : List (String × ObState)).map (fun e => if e.1 == cid then (cid, st) else e)

/-- Python `del onboarding_state[channel_id]`. -/
def obDel (m : ObMap) (cid : String) : ObMap :=
  (m : List (String × ObState)).filter (fun e => !(e.1 == cid))

/-- The state the live event handlers act on: the database plus the
process-scoped `onboarding_state` dict. -/
structure LiveState where
  db : Db
  onboarding : ObMap

/-- A `message` event as the live handler reads it: the channel id plus the
message dict fields. -/
structure Event where
  channel : String
  msg : Msg
deriving Repr

/-- Handler `handle_onboarding(channel_id, text, client, db)`.  `text` is already
stripped and lower-cased by the caller.  `channel_name_info` is the name
returned by the awaited `conversations_info` call.  A `waiting_for_assist`
session matches neither branch, so nothing happens. -/
def handle_onboarding (st : LiveState) (channel_id text channel_name_info : String) :
    LiveState :=
  match obLookup st.onboarding channel_id with
  | none => st
  | some state =>
    match state.step with
    | ObStep.waiting_for_assist => st
    | ObStep.team_name =>
      let (team, db) := get_or_create_team st.db text channel_id
      let (_, db) := get_or_create_channel db channel_id channel_name_info team.id
      { db := db,
        onboarding := obSet st.onboarding channel_id
          { state with team_id := some team.id, step := ObStep.bot_accounts } }
    | ObStep.bot_accounts =>
      let bot_accounts := (pySplitCommas text).map pyStrip
      let db := { st.db with channels := st.db.channels.map (fun c =>
          if c.slack_channel_id == channel_id then
            { c with monitored_bot_accounts := bot_accounts }
          else c) }
      { db := db, onboarding := obDel st.onboarding channel_id }

/-- Handler `handle_messages(body, say, client)` for a `message` event.
`channel_name_info` feeds the `conversations_info` call the onboarding
team-name step may make.  When an onboarding session exists for the channel,
only the session branches run; otherwise a registered channel persists the
message when the filter passes. -/
def handle_messages (st : LiveState) (ev : Event) (channel_name_info : String) :
    LiveState :=
  let text := pyLower (pyStrip ev.msg.getText)
  let thread_ts := ev.msg.thread_ts
  let channel :=
    st.db.channels.find? (fun c => c.slack_channel_id == ev.channel)
  match obLookup st.onboarding ev.channel with
  | some state =>
    if state.step = ObStep.waiting_for_assist ∧ thread_ts = some state.thread_ts ∧
        strHasSub text "assist" then
      let state' := { state with step := ObStep.team_name }
      { st with onboarding := obSet st.onboarding ev.channel state' }
    else if thread_ts = some state.thread_ts then
      handle_onboarding st ev.channel text channel_name_info
    else st
  | none =>
    match channel with
    | some ch =>
      if should_we_persist_message ev.msg ch.monitored_bot_accounts then
        { st with
          db := (determine_and_create_activity st.db ch.team_id ev.msg none).2 }
      else st
    | none => st

/-! ## Reference functions describing what the polling fold produces -/

/-- Maximum of a starting value and the timestamps of a reply list, folded the
way the inner thread loop folds `newest`. -/
def replyMax (t : ℚ) (tms : List Msg) : ℚ :=
  tms.foldl (fun a tm => max a tm.ts) t

/-- The activity row `determine_and_create_activity` inserts for a message,
given the id the autoincrement counter will assign. -/
def mkActivity (id team_id : Nat) (msg : Msg) (parent : Option Nat) : Activity :=
  ⟨id, team_id, (classify msg).1, (classify msg).2, msg.getText, msg.ts, parent⟩

/-- The child rows created for a list of thread replies: consecutive ids from
`startId`, every row carrying `parent_activity_id = some parentId`. -/
def mkChildren (team_id parentId startId : Nat) : List Msg → List Activity
  | [] => []
  | tm :: rest =>
    mkActivity startId team_id tm (some parentId) ::
      mkChildren team_id parentId (startId + 1) rest

/-- The activity rows one polled message contributes, in creation order. -/
def msgNewActs (channel : Channel) (nextId : Nat) (pm : PolledMsg) : List Activity :=
  if should_we_persist_message pm.msg channel.monitored_bot_accounts then
    if pm.msg.thread_ts.isSome || pm.msg.reply_count > 0 then
      mkActivity nextId channel.team_id pm.msg none ::
        mkChildren channel.team_id nextId (nextId + 1) (pm.thread.drop 1)
    else [mkActivity nextId channel.team_id pm.msg none]
  else []

/-- The value of `newest` after one polled message. -/
def msgNewest (channel : Channel) (t : ℚ) (pm : PolledMsg) : ℚ :=
  if should_we_persist_message pm.msg channel.monitored_bot_accounts
      && (pm.msg.thread_ts.isSome || pm.msg.reply_count > 0) then
    replyMax (max t pm.msg.ts) (pm.thread.drop 1)
  else max t pm.msg.ts

/-- The activity rows a whole history page contributes, in creation order. -/
def pageNewActs (channel : Channel) (nextId : Nat) : List PolledMsg → List Activity
  | [] => []
  | pm :: rest =>
    msgNewActs channel nextId pm ++
      pageNewActs channel (nextId + (msgNewActs channel nextId pm).length) rest

/-- The value of `newest` after a whole history page. -/
def pageNewest (channel : Channel) (t : ℚ) (pms : List PolledMsg) : ℚ :=
  pms.foldl (msgNewest channel) t

/-! ## Parent-before-child order and timestamp order of a creation trace -/

/-- The ids of a list of activity rows. -/
def idsOf (l : List Activity) : List Nat := l.map (·.id)

/-- Auxiliary scan: every row's parent reference points at an id seen
earlier (either in `seen` or in a preceding row of the list). -/
def parentsBeforeAux (seen : List Nat) : List Activity → Bool
  | [] => true
  | a :: rest =>
    (match a.parent_activity_id with
     | none => true
     | some p => seen.contains p) && parentsBeforeAux (seen ++ [a.id]) rest

/-- Every activity with a parent reference appears after the referenced row in
the creation trace. -/
def parentsBefore (l : List Activity) : Bool := parentsBeforeAux [] l

/-- Is a list of timestamps non-decreasing? -/
def nonDecr : List ℚ → Bool
  | [] => true
  | [_] => true
  | a :: b :: rest => decide (a ≤ b) && nonDecr (b :: rest)

/-! ## Concrete fixtures used by counterexamples and witnesses -/

/-- A registered channel monitoring the bot account "ci-bot". -/
def chGrowth : Channel := ⟨1, "C1", "growth", 1, ["ci-bot"]⟩

/-- A second registered channel, also monitoring "ci-bot". -/
def chOps : Channel := ⟨2, "C2", "ops", 1, ["ci-bot"]⟩

/-- A monitored bot message at timestamp `t` that starts a thread. -/
def botMsgAt (t : ℚ) : Msg := ⟨some "B1", some "ci-bot", some "deploy ok", t, none, 2⟩

/-- A human thread reply at timestamp `t`. -/
def replyAt (t : ℚ) : Msg := ⟨none, none, some "looking", t, some 10, 0⟩

/-- A monitored bot message with a thread whose single reply is later (ts 20)
than the next top-level message. -/
def pmThread : PolledMsg := ⟨botMsgAt 10, [botMsgAt 10, replyAt 20]⟩

/-- A later top-level monitored bot message (ts 11) with no thread. -/
def pmLater : PolledMsg :=
  ⟨{ botMsgAt 11 with thread_ts := none, reply_count := 0 }, []⟩

/-- A monitored bot parent (ts 10) with two replies (ts 11 and 12); the
replies response lists the parent itself first, as the platform does. -/
def pmTwoReplies : PolledMsg := ⟨botMsgAt 10, [botMsgAt 10, replyAt 11, replyAt 12]⟩

/-- A database holding the two registered channels and their team. -/
def twoChanDb : Db :=
  { Db.empty with
    teams := [⟨1, "growth", ["C1", "C2"]⟩],
    channels := [chGrowth, chOps],
    next_team_id := 2, next_channel_id := 3 }

/-- Outcomes for a pass in which channel "C1" raises while channel "C2"
receives one monitored parent with two replies. -/
def raiseFirstInputs : String → ChannelOutcome := fun cid =>
  if cid = "C1" then ChannelOutcome.raise
  else ChannelOutcome.slack (HistoryResult.ok [pmTwoReplies])

/-- Live state at the start of the onboarding dialog: channel "C1" is
unregistered and its session awaits "assist" in the thread anchored at 100. -/
def obStart : LiveState :=
  ⟨Db.empty, [("C1", ⟨ObStep.waiting_for_assist, 100, none⟩)]⟩

/-- First onboarding message: same thread, contains "assist". -/
def obEv1 : Event := ⟨"C1", ⟨none, none, some "please assist", 101, some 100, 0⟩⟩

/-- Second onboarding message: the team name, with capital letters. -/
def obEv2 : Event := ⟨"C1", ⟨none, none, some "Team Rocket", 102, some 100, 0⟩⟩

/-- Third onboarding message: the comma-separated bot account list. -/
def obEv3 : Event := ⟨"C1", ⟨none, none, some "ci-bot, release-bot", 103, some 100, 0⟩⟩

/-- State after the first onboarding message. -/
def obAfter1 : LiveState := handle_messages obStart obEv1 "growth"

/-- State after the second onboarding message. -/
def obAfter2 : LiveState := handle_messages obAfter1 obEv2 "growth"

/-- State after the third onboarding message. -/
def obAfter3 : LiveState := handle_messages obAfter2 obEv3 "growth"

/-- Live state with a registered, monitored channel "C1" AND an active
onboarding session for "C1" pinned to thread 100. -/
def liveWithSession : LiveState :=
  ⟨{ Db.empty with
      teams := [⟨1, "growth", ["C1"]⟩],
      channels := [chGrowth],
      next_team_id := 2, next_channel_id := 2 },
    [("C1", ⟨ObStep.waiting_for_assist, 100, none⟩)]⟩

/-- A monitored bot message event in channel "C1" in a DIFFERENT thread (200)
than the session's pinned thread (100). -/
def liveBotEvent : Event :=
  ⟨"C1", ⟨some "B1", some "ci-bot", some "deploy ok", 201, some 200, 0⟩⟩

/-! ## Checkpoint-store lemmas -/

theorem findStatus_get_or_create (db : Db) (cid : String) :
    findStatus (get_or_create_channel_status db cid).2 cid =
      some ⟨cid, getLatest db cid⟩ := by
  unfold get_or_create_channel_status getLatest
  cases h : findStatus db cid with
  | some cs =>
    have hp := List.find?_some h
    simp only [beq_iff_eq] at hp
    subst hp
    simp [h]
  | none =>
    simp only [h, findStatus] at *
    simp [List.find?_append, h]

theorem findStatus_get_or_create_ne (db : Db) (cid cid' : String)
    (h : cid' ≠ cid) :
    findStatus (get_or_create_channel_status db cid).2 cid' = findStatus db cid' := by
  unfold get_or_create_channel_status
  cases hf : findStatus db cid with
  | some cs => simp [hf]
  | none =>
    simp only [hf, findStatus] at *
    simp [List.find?_append, h, Ne.symm h]

theorem statusVal_update_self (db : Db) (cid : String) (ts : ℚ) :
    statusVal (update_channel_status db cid ts) cid = some ts := by
  unfold statusVal update_channel_status findStatus
  have hg := findStatus_get_or_create db cid
  unfold findStatus at hg
  have hfun : (fun cs : ChannelProcessingStatus =>
      (if cs.slack_channel_id == cid then
        { cs with last_processed_timestamp := ts } else cs).slack_channel_id == cid)
      = (fun cs : ChannelProcessingStatus => cs.slack_channel_id == cid) := by
    funext cs
    by_cases hcs : cs.slack_channel_id = cid <;> simp [hcs]
  simp only [List.find?_map, Function.comp_def, hfun, hg]
  simp

theorem statusVal_update_ne (db : Db) (cid cid' : String) (ts : ℚ)
    (h : cid' ≠ cid) :
    statusVal (update_channel_status db cid ts) cid' = statusVal db cid' := by
  unfold statusVal update_channel_status findStatus
  have hg := findStatus_get_or_create_ne db cid cid' h
  unfold findStatus at hg
  have hfun : (fun cs : ChannelProcessingStatus =>
      (if cs.slack_channel_id == cid then
        { cs with last_processed_timestamp := ts } else cs).slack_channel_id == cid')
      = (fun cs : ChannelProcessingStatus => cs.slack_channel_id == cid') := by
    funext cs
    by_cases hcs : cs.slack_channel_id = cid <;> simp [hcs, h, Ne.symm h]
  simp only [List.find?_map, Function.comp_def, hfun, hg]
  cases hf : (db.channel_statuses.find? fun cs => cs.slack_channel_id == cid') with
  | none => simp
  | some cs =>
    have hp := List.find?_some hf
    simp only [beq_iff_eq] at hp
    simp [hp, h]

/-- C1 (counterexample): starting from an empty store, `advance("C", 5)` then
`advance("C", 3)` stores `3`, strictly below the previous value `5` and below
`max(5, 3)` — `update_channel_status` assigns unconditionally, it does not
take a maximum. -/
theorem update_channel_status_regresses :
    statusVal (update_channel_status (update_channel_status Db.empty "C" 5) "C" 3)
        "C" = some 3 ∧
    statusVal (update_channel_status (update_channel_status Db.empty "C" 5) "C" 3)
        "C" ≠ some (max 5 3) ∧ (3 : ℚ) < 5 := by
  refine ⟨?_, ?_, by norm_num⟩ <;> decide

/-- C1 (amended): `update_channel_status(channel_id, new_timestamp)` stores
exactly `new_timestamp`, unconditionally — it regresses when called with a
value below the current one; consequently, after a sequence of calls with
timestamps `t1..tn` the stored value equals the LAST timestamp `tn`, not the
maximum, so the stored value depends on call order. -/
theorem update_channel_status_stores_last (db : Db) (cid : String) (ts : ℚ)
    (l : List ℚ) :
    statusVal
        (l.foldl (fun d t => update_channel_status d cid t)
          (update_channel_status db cid ts)) cid
      = some (l.getLastD ts) := by
  induction l generalizing db ts with
  | nil => simpa using statusVal_update_self db cid ts
  | cons t l ih =>
    rw [List.foldl_cons, List.getLastD_cons]
    exact ih (update_channel_status db cid ts) t

/-! ## Team resolution (C3) -/

/-- C3 (counterexample): with team 1 = ("A", owning "C1") and team 2 =
("B", no channels), `get_or_create_team(db, "B", "C1")` returns team 2 and
appends "C1" to it — not team 1, which already has "C1" in its channel-id
set: the lookup by name takes precedence over the lookup by channel. -/
theorem get_or_create_team_name_wins_cex :
    (let db : Db := { Db.empty with
        teams := [⟨1, "A", ["C1"]⟩, ⟨2, "B", []⟩], next_team_id := 3 }
     "C1" ∈ (Team.mk 1 "A" ["C1"]).slack_channel_ids ∧
     Team.mk 1 "A" ["C1"] ∈ db.teams ∧
     (get_or_create_team db "B" "C1").1.id = 2 ∧
     (get_or_create_team db "B" "C1").1.id ≠ 1) := by
  decide

/-- C3 (amended): `get_or_create_team(name, channel_id)` resolves in
NAME-first order: if a team with the given name exists, channel_id is appended
to its channel-id set (only if absent) and that team is returned — even when a
different team already has channel_id; otherwise, if some team has channel_id
in its channel-id set, the first such team is returned unchanged; otherwise a
new team is created whose channel-id set is exactly `[channel_id]`. -/
theorem get_or_create_team_resolution (db : Db) (team_name channel_id : String) :
    channel_id ∈ (get_or_create_team db team_name channel_id).1.slack_channel_ids ∧
    (match find_team_by_name db team_name with
     | some t =>
       (get_or_create_team db team_name channel_id).1.id = t.id ∧
       (get_or_create_team db team_name channel_id).1.name = t.name ∧
       (get_or_create_team db team_name channel_id).1.slack_channel_ids =
         (if channel_id ∈ t.slack_channel_ids then t.slack_channel_ids
          else t.slack_channel_ids ++ [channel_id])
     | none =>
       match get_team_by_slack_channel db channel_id with
       | some t => get_or_create_team db team_name channel_id = (t, db)
       | none =>
         (get_or_create_team db team_name channel_id).1 =
           ⟨db.next_team_id, team_name, [channel_id]⟩) := by
  unfold get_or_create_team
  cases hn : find_team_by_name db team_name with
  | some t =>
    by_cases hm : channel_id ∈ t.slack_channel_ids <;> simp [hn, hm]
  | none =>
    cases hc : get_team_by_slack_channel db channel_id with
    | some t =>
      have hp := List.find?_some hc
      have hm : channel_id ∈ t.slack_channel_ids := by
        exact of_decide_eq_true hp
      simp [hn, hc, hm]
    | none => simp [hn, hc, create_team]

/-! ## Classification (C5) and the persistence filter (C6) -/

/-- C5: classification is deterministic and ordered: an "alert" substring of
the lower-cased text wins regardless of author; otherwise a (truthy) bot
identity gives (BOT_MESSAGE, ONGOING); otherwise (HUMAN_THREAD, ONGOING).
The three spec examples are included verbatim. -/
theorem classify_ordered :
    (∀ msg : Msg,
      classify msg =
        match strHasSub (pyLower msg.getText) "alert", msg.botIdTruthy with
        | true, _ => (ActivityType.ALERT, ActivityStatus.FIRED)
        | false, true => (ActivityType.BOT_MESSAGE, ActivityStatus.ONGOING)
        | false, false => (ActivityType.HUMAN_THREAD, ActivityStatus.ONGOING)) ∧
    classify ⟨none, none, some "ALERT: disk full", 1, none, 0⟩ =
      (ActivityType.ALERT, ActivityStatus.FIRED) ∧
    classify ⟨some "B1", none, some "deploy ok", 2, none, 0⟩ =
      (ActivityType.BOT_MESSAGE, ActivityStatus.ONGOING) ∧
    classify ⟨none, none, some "hey team", 3, none, 0⟩ =
      (ActivityType.HUMAN_THREAD, ActivityStatus.ONGOING) := by
  refine ⟨?_, by decide, by decide, by decide⟩
  intro msg
  unfold classify
  cases h1 : strHasSub (pyLower msg.getText) "alert" <;>
    cases h2 : msg.botIdTruthy <;> simp [h1, h2]

/-- C6: the persistence filter returns true exactly when the message carries a
bot identity AND the bot-profile display name is a member of the
monitored-accounts list; a message with no bot identity always yields false,
whatever the list. -/
theorem should_we_persist_message_iff :
    (∀ (msg : Msg) (mon : List String),
      should_we_persist_message msg mon = true ↔
        msg.bot_id.isSome = true ∧
          ∃ n, msg.bot_profile_name = some n ∧ n ∈ mon) ∧
    (∀ (mon : List String) (pn tx : Option String) (ts : ℚ) (tts : Option ℚ)
        (rc : Nat),
      should_we_persist_message ⟨none, pn, tx, ts, tts, rc⟩ mon = false) := by
  constructor
  · intro msg mon
    unfold should_we_persist_message
    cases hb : msg.bot_profile_name <;> simp [hb]
  · intro mon pn tx ts tts rc
    unfold should_we_persist_message
    simp

/-! ## Error handling of the history query (C8) -/

theorem get_or_create_activities (db : Db) (cid : String) :
    (get_or_create_channel_status db cid).2.activities = db.activities := by
  unfold get_or_create_channel_status
  cases findStatus db cid <;> simp

theorem update_channel_status_activities (db : Db) (cid : String) (ts : ℚ) :
    (update_channel_status db cid ts).activities = db.activities := by
  unfold update_channel_status
  simp [get_or_create_activities]

theorem get_or_create_getLatest (db : Db) (cid cid' : String) :
    getLatest (get_or_create_channel_status db cid).2 cid' = getLatest db cid' := by
  by_cases h : cid' = cid
  · subst h
    have := findStatus_get_or_create db cid'
    unfold getLatest
    rw [this]
    simp [getLatest]
  · unfold getLatest
    rw [findStatus_get_or_create_ne db cid cid' h]

/-- C8: when the history query fails with a `SlackApiError` whose text
contains `"invalid_ts_oldest"`, the channel's checkpoint is forced to 0 (other
channels' checkpoints untouched, no activity rows created); on any other
`SlackApiError` every stored checkpoint value is left unchanged and no
activity rows are created.  In both cases `fetch_and_store_activities`
returns normally — it is a total function into `Db`, so the error never
propagates. -/
theorem fetch_and_store_api_error (channel : Channel) (db : Db) (e : String) :
    if strHasSub e "invalid_ts_oldest" then
      statusVal (fetch_and_store_activities channel (HistoryResult.apiError e) db)
          channel.slack_channel_id = some 0 ∧
      (∀ cid, cid ≠ channel.slack_channel_id →
        statusVal (fetch_and_store_activities channel (HistoryResult.apiError e) db)
            cid = statusVal db cid) ∧
      (fetch_and_store_activities channel (HistoryResult.apiError e) db).activities
        = db.activities
    else
      (∀ cid, getLatest
          (fetch_and_store_activities channel (HistoryResult.apiError e) db) cid
        = getLatest db cid) ∧
      (fetch_and_store_activities channel (HistoryResult.apiError e) db).activities
        = db.activities := by
  by_cases h : strHasSub e "invalid_ts_oldest" <;>
    simp only [h, if_true, if_false, Bool.false_eq_true]
  · unfold fetch_and_store_activities
    simp only [h, if_true]
    refine ⟨statusVal_update_self _ _ _, fun cid hcid => ?_, ?_⟩
    · rw [statusVal_update_ne _ _ _ _ hcid]
      unfold statusVal
      rw [findStatus_get_or_create_ne _ _ _ hcid]
    · rw [update_channel_status_activities, get_or_create_activities]
  · unfold fetch_and_store_activities
    have hb : strHasSub e "invalid_ts_oldest" = false := by
      simpa using h
    simp only [hb, Bool.false_eq_true, if_false]
    exact ⟨fun cid => get_or_create_getLatest db channel.slack_channel_id cid,
      get_or_create_activities db channel.slack_channel_id⟩

/-! ## Characterization of the polling fold -/

theorem determine_and_create_spec (db : Db) (team_id : Nat) (msg : Msg)
    (parent : Option Nat) :
    determine_and_create_activity db team_id msg parent =
      (mkActivity db.next_activity_id team_id msg parent,
        { db with
            activities := db.activities ++
              [mkActivity db.next_activity_id team_id msg parent],
            next_activity_id := db.next_activity_id + 1 }) := by
  unfold determine_and_create_activity create_activity mkActivity
  rcases h : classify msg with ⟨ty, st⟩
  simp [h]

theorem threadFold_spec (team_id parentId : Nat) (tms : List Msg) (db : Db)
    (t : ℚ) :
    tms.foldl (processThreadMsg team_id parentId) (db, t) =
      ({ db with
          activities := db.activities ++
            mkChildren team_id parentId db.next_activity_id tms,
          next_activity_id := db.next_activity_id + tms.length },
        replyMax t tms) := by
  induction tms generalizing db t with
  | nil => simp [mkChildren, replyMax]
  | cons tm rest ih =>
    have h1 : processThreadMsg team_id parentId (db, t) tm =
        ({ db with
            activities := db.activities ++
              [mkActivity db.next_activity_id team_id tm (some parentId)],
            next_activity_id := db.next_activity_id + 1 }, max t tm.ts) := by
      simp only [processThreadMsg, determine_and_create_spec]
    rw [List.foldl_cons, h1, ih]
    simp only [mkChildren, replyMax, List.foldl_cons, List.length_cons,
      Prod.mk.injEq, Db.mk.injEq, true_and, and_true, List.append_assoc,
      List.singleton_append]
    omega

theorem mkActivity_id (id team_id : Nat) (msg : Msg) (parent : Option Nat) :
    (mkActivity id team_id msg parent).id = id := rfl

theorem mkChildren_length (team_id parentId startId : Nat) (tms : List Msg) :
    (mkChildren team_id parentId startId tms).length = tms.length := by
  induction tms generalizing startId with
  | nil => rfl
  | cons tm rest ih => simp [mkChildren, ih]

theorem processMsg_spec (channel : Channel) (db : Db) (t : ℚ) (pm : PolledMsg) :
    processMsg channel (db, t) pm =
      ({ db with
          activities := db.activities ++
            msgNewActs channel db.next_activity_id pm,
          next_activity_id := db.next_activity_id +
            (msgNewActs channel db.next_activity_id pm).length },
        msgNewest channel t pm) := by
  unfold processMsg msgNewActs msgNewest
  by_cases hp : should_we_persist_message pm.msg channel.monitored_bot_accounts
  · by_cases hc : (pm.msg.thread_ts.isSome || pm.msg.reply_count > 0) = true
    · simp only [hp, hc, if_true, Bool.and_self, determine_and_create_spec,
        threadFold_spec, Bool.true_and]
      simp only [Prod.mk.injEq, Db.mk.injEq, true_and, and_true,
        List.append_assoc, List.singleton_append, List.length_cons,
        mkActivity_id, mkChildren_length]
      omega
    · simp only [hp, if_true, determine_and_create_spec]
      simp only [Bool.not_eq_true] at hc
      simp [hc]
  · simp only [Bool.not_eq_true] at hp
    simp [hp]

theorem pageFold_spec (channel : Channel) (db : Db) (t : ℚ)
    (pms : List PolledMsg) :
    pms.foldl (processMsg channel) (db, t) =
      ({ db with
          activities := db.activities ++
            pageNewActs channel db.next_activity_id pms,
          next_activity_id := db.next_activity_id +
            (pageNewActs channel db.next_activity_id pms).length },
        pageNewest channel t pms) := by
  induction pms generalizing db t with
  | nil => simp [pageNewActs, pageNewest]
  | cons pm rest ih =>
    rw [List.foldl_cons, processMsg_spec, ih]
    simp only [pageNewActs, pageNewest, List.foldl_cons, List.length_append,
      Prod.mk.injEq, Db.mk.injEq, true_and, and_true, List.append_assoc]
    omega

theorem get_or_create_next_activity (db : Db) (cid : String) :
    (get_or_create_channel_status db cid).2.next_activity_id =
      db.next_activity_id := by
  unfold get_or_create_channel_status
  cases findStatus db cid <;> simp

theorem get_or_create_channel_statuses_after (db : Db) (cid : String) :
    ∀ cid', statusVal (get_or_create_channel_status db cid).2 cid' =
      if cid' = cid then some (getLatest db cid) else statusVal db cid' := by
  intro cid'
  by_cases h : cid' = cid
  · subst h
    unfold statusVal
    rw [findStatus_get_or_create]
    simp
  · unfold statusVal
    rw [findStatus_get_or_create_ne db cid cid' h]
    simp [h]

/-- Full description of a successful one-channel polling pass: the created
rows are `pageNewActs` appended in order, and the stored checkpoint becomes
`pageNewest` of the previous checkpoint. -/
theorem fetch_ok_spec (channel : Channel) (db : Db) (pms : List PolledMsg) :
    (fetch_and_store_activities channel (HistoryResult.ok pms) db).activities
        = db.activities ++ pageNewActs channel db.next_activity_id pms ∧
    statusVal (fetch_and_store_activities channel (HistoryResult.ok pms) db)
        channel.slack_channel_id
      = some (pageNewest channel (getLatest db channel.slack_channel_id) pms) := by
  obtain ⟨cs, db2, hg⟩ : ∃ cs db2,
      get_or_create_channel_status db channel.slack_channel_id = (cs, db2) :=
    ⟨_, _, rfl⟩
  have hlast : cs.last_processed_timestamp
      = getLatest db channel.slack_channel_id := by
    have h : (get_or_create_channel_status db channel.slack_channel_id).1.last_processed_timestamp
        = getLatest db channel.slack_channel_id := by
      unfold get_or_create_channel_status getLatest
      cases h : findStatus db channel.slack_channel_id <;> simp [h]
    simpa [hg] using h
  have hacts2 : db2.activities = db.activities := by
    have h := get_or_create_activities db channel.slack_channel_id
    simpa [hg] using h
  have hnext2 : db2.next_activity_id = db.next_activity_id := by
    have h := get_or_create_next_activity db channel.slack_channel_id
    simpa [hg] using h
  unfold fetch_and_store_activities
  simp only [hg]
  simp only [pageFold_spec]
  constructor
  · rw [update_channel_status_activities]
    simp [hacts2, hnext2]
  · rw [statusVal_update_self, hlast]

/-- C7: a persisted top-level message that started or has a thread yields
exactly one child activity per element of the replies response minus its
first element (the parent itself), regardless of the replies' authors, each
child referencing the parent's id; and when the stored checkpoint does not
exceed the parent's timestamp, a parent with two replies advances the
checkpoint to the maximum of the three timestamps. -/
theorem fetch_thread_linkage (db : Db) (channel : Channel) (pm : PolledMsg)
    (p r1 r2 : Msg)
    (hthread : pm.thread = [p, r1, r2])
    (hpersist : should_we_persist_message pm.msg channel.monitored_bot_accounts
      = true)
    (hcond : (pm.msg.thread_ts.isSome || pm.msg.reply_count > 0) = true)
    (hlatest : getLatest db channel.slack_channel_id ≤ pm.msg.ts) :
    (fetch_and_store_activities channel (HistoryResult.ok [pm]) db).activities
        = db.activities ++
          [mkActivity db.next_activity_id channel.team_id pm.msg none,
           mkActivity (db.next_activity_id + 1) channel.team_id r1
             (some db.next_activity_id),
           mkActivity (db.next_activity_id + 2) channel.team_id r2
             (some db.next_activity_id)] ∧
    statusVal (fetch_and_store_activities channel (HistoryResult.ok [pm]) db)
        channel.slack_channel_id
      = some (max pm.msg.ts (max r1.ts r2.ts)) := by
  obtain ⟨hacts, hstat⟩ := fetch_ok_spec channel db [pm]
  constructor
  · rw [hacts]
    simp [pageNewActs, msgNewActs, hpersist, hcond, hthread, mkChildren]
  · rw [hstat]
    simp [pageNewest, msgNewest, hpersist, hcond, hthread, replyMax]
    rw [max_eq_right hlatest]
    rw [max_assoc]

/-- C7 witness: channel "growth" with checkpoint 0 ingests one monitored
parent (ts 10) with two replies (ts 11, 12): exactly the parent row and two
child rows referencing it are created, and the checkpoint becomes 12. -/
theorem fetch_thread_linkage_witness :
    (fetch_and_store_activities chGrowth (HistoryResult.ok [pmTwoReplies])
        Db.empty).activities
      = [mkActivity 1 1 (botMsgAt 10) none,
         mkActivity 2 1 (replyAt 11) (some 1),
         mkActivity 3 1 (replyAt 12) (some 1)] ∧
    statusVal (fetch_and_store_activities chGrowth
        (HistoryResult.ok [pmTwoReplies]) Db.empty) "C1" = some 12 := by
  have h := fetch_thread_linkage Db.empty chGrowth pmTwoReplies
    (botMsgAt 10) (replyAt 11) (replyAt 12) (by decide) (by decide) (by decide)
    (by decide)
  obtain ⟨h1, h2⟩ := h
  exact ⟨h1.trans (by decide), h2.trans (by decide)⟩

/-! ## Partial-failure isolation of one polling pass (C9) -/

theorem getLatest_eq (db : Db) (cid : String) :
    getLatest db cid = (statusVal db cid).getD 0 := rfl

theorem fetch_statusVal_ne (channel : Channel) (hist : HistoryResult) (db : Db)
    (cid : String) (h : cid ≠ channel.slack_channel_id) :
    statusVal (fetch_and_store_activities channel hist db) cid
      = statusVal db cid := by
  obtain ⟨cs, db2, hg⟩ : ∃ cs db2,
      get_or_create_channel_status db channel.slack_channel_id = (cs, db2) :=
    ⟨_, _, rfl⟩
  have hdb2 : statusVal db2 cid = statusVal db cid := by
    have hh := findStatus_get_or_create_ne db channel.slack_channel_id cid h
    simp only [hg] at hh
    unfold statusVal
    rw [hh]
  unfold fetch_and_store_activities
  simp only [hg]
  cases hist with
  | ok pms =>
    rw [statusVal_update_ne _ _ _ _ h, pageFold_spec]
    exact hdb2
  | apiError e =>
    by_cases he : strHasSub e "invalid_ts_oldest" = true
    · simp only [he, if_true]
      rw [statusVal_update_ne _ _ _ _ h]
      exact hdb2
    · simp only [he, Bool.false_eq_true, if_false]
      exact hdb2

theorem processChannels_statusVal_ne (inputs : String → ChannelOutcome)
    (l : List Channel) (db : Db) (cid : String)
    (h : ∀ c ∈ l, cid ≠ c.slack_channel_id) :
    statusVal (processChannels inputs l db) cid = statusVal db cid := by
  induction l generalizing db with
  | nil => rfl
  | cons c rest ih =>
    unfold processChannels
    cases hin : inputs c.slack_channel_id with
    | raise =>
      exact ih db (fun c' hc' => h c' (List.mem_cons_of_mem _ hc'))
    | slack hist =>
      rw [ih _ (fun c' hc' => h c' (List.mem_cons_of_mem _ hc'))]
      exact fetch_statusVal_ne c hist db cid (h c (List.mem_cons_self _ _))

theorem processChannels_isolated (inputs : String → ChannelOutcome)
    (ch : Channel) (pms : List PolledMsg)
    (hin : inputs ch.slack_channel_id
      = ChannelOutcome.slack (HistoryResult.ok pms))
    (l : List Channel) (db : Db)
    (hdist : l.Pairwise (fun a b => a.slack_channel_id ≠ b.slack_channel_id))
    (hmem : ch ∈ l) :
    statusVal (processChannels inputs l db) ch.slack_channel_id
      = some (pageNewest ch (getLatest db ch.slack_channel_id) pms) := by
  induction l generalizing db with
  | nil => cases hmem
  | cons c rest ih =>
    rcases List.mem_cons.mp hmem with rfl | hmem2
    · unfold processChannels
      simp only [hin]
      have hrest : ∀ c' ∈ rest, ch.slack_channel_id ≠ c'.slack_channel_id :=
        fun c' hc' => (List.pairwise_cons.mp hdist).1 c' hc'
      rw [processChannels_statusVal_ne inputs rest _ _ hrest]
      exact (fetch_ok_spec ch db pms).2
    · have hne : ch.slack_channel_id ≠ c.slack_channel_id :=
        fun he => (List.pairwise_cons.mp hdist).1 ch hmem2 he.symm
      have htail := (List.pairwise_cons.mp hdist).2
      unfold processChannels
      cases hinc : inputs c.slack_channel_id with
      | raise => exact ih db htail hmem2
      | slack hist =>
        rw [ih (fetch_and_store_activities c hist db) htail hmem2]
        rw [getLatest_eq, fetch_statusVal_ne c hist db _ hne, ← getLatest_eq]

/-- C9: within one polling pass over registered channels with pairwise
distinct channel ids, whatever exceptions the other channels raise (modelled
by arbitrary `inputs`, which may map every other channel to `raise`), a
channel whose own history call succeeds is still processed and its checkpoint
still advances to the value its own page dictates. -/
theorem run_pass_partial_failure_isolation (db : Db)
    (inputs : String → ChannelOutcome) (ch : Channel) (pms : List PolledMsg)
    (hdist : db.channels.Pairwise
      (fun a b => a.slack_channel_id ≠ b.slack_channel_id))
    (hmem : ch ∈ db.channels)
    (hin : inputs ch.slack_channel_id
      = ChannelOutcome.slack (HistoryResult.ok pms)) :
    statusVal (run_ingestion_pass inputs db) ch.slack_channel_id
      = some (pageNewest ch (getLatest db ch.slack_channel_id) pms) :=
  processChannels_isolated inputs ch pms hin db.channels db hdist hmem

/-- C9 witness: in a pass over channels "C1" and "C2" where "C1" raises,
"C2" is still processed and its checkpoint advances to 12. -/
theorem run_pass_partial_failure_isolation_witness :
    raiseFirstInputs "C1" = ChannelOutcome.raise ∧
    statusVal (run_ingestion_pass raiseFirstInputs twoChanDb) "C2"
      = some 12 := by
  refine ⟨by decide, ?_⟩
  have h := run_pass_partial_failure_isolation twoChanDb raiseFirstInputs chOps
    [pmTwoReplies] (by decide) (by decide) (by decide)
  exact h.trans (by decide)

/-! ## Creation order within one channel pass (C2) -/

theorem parentsBeforeAux_append (s : List Nat) (l1 l2 : List Activity) :
    parentsBeforeAux s (l1 ++ l2)
      = (parentsBeforeAux s l1 && parentsBeforeAux (s ++ idsOf l1) l2) := by
  induction l1 generalizing s with
  | nil => simp [parentsBeforeAux, idsOf]
  | cons a rest ih =>
    simp only [List.cons_append, parentsBeforeAux, List.append_eq, ih, idsOf,
      List.map_cons, Bool.and_assoc, List.append_assoc, List.singleton_append,
      List.nil_append]

theorem parentsBeforeAux_mkChildren (team_id parentId : Nat) (tms : List Msg)
    (s : List Nat) (startId : Nat) (h : parentId ∈ s) :
    parentsBeforeAux s (mkChildren team_id parentId startId tms) = true := by
  induction tms generalizing s startId with
  | nil => rfl
  | cons tm rest ih =>
    simp only [mkChildren, parentsBeforeAux, mkActivity]
    rw [Bool.and_eq_true]
    refine ⟨?_, ?_⟩
    · simpa using h
    · exact ih (s ++ [startId]) (startId + 1) (List.mem_append_left _ h)

theorem parentsBeforeAux_pageNewActs (channel : Channel) (pms : List PolledMsg)
    (s : List Nat) (n : Nat) :
    parentsBeforeAux s (pageNewActs channel n pms) = true := by
  induction pms generalizing s n with
  | nil => rfl
  | cons pm rest ih =>
    rw [pageNewActs, parentsBeforeAux_append, Bool.and_eq_true]
    refine ⟨?_, ih _ _⟩
    unfold msgNewActs
    by_cases hp : should_we_persist_message pm.msg channel.monitored_bot_accounts
      = true
    · by_cases hc : (pm.msg.thread_ts.isSome || pm.msg.reply_count > 0) = true
      · simp only [hp, hc, if_true]
        simp only [parentsBeforeAux, mkActivity]
        rw [Bool.and_eq_true]
        refine ⟨rfl, ?_⟩
        exact parentsBeforeAux_mkChildren channel.team_id n _ _ _
          (List.mem_append_right _ (List.mem_singleton.mpr rfl))
      · simp only [hp, if_true, hc, Bool.false_eq_true, if_false]
        simp [parentsBeforeAux, mkActivity]
    · simp only [hp, Bool.false_eq_true, if_false]
      rfl

theorem fetch_apiError_activities (channel : Channel) (e : String) (db : Db) :
    (fetch_and_store_activities channel (HistoryResult.apiError e) db).activities
      = db.activities := by
  obtain ⟨cs, db2, hg⟩ : ∃ cs db2,
      get_or_create_channel_status db channel.slack_channel_id = (cs, db2) :=
    ⟨_, _, rfl⟩
  have hacts2 : db2.activities = db.activities := by
    have hh := get_or_create_activities db channel.slack_channel_id
    simpa [hg] using hh
  unfold fetch_and_store_activities
  simp only [hg]
  by_cases he : strHasSub e "invalid_ts_oldest" = true
  · simp only [he, if_true]
    rw [update_channel_status_activities]
    exact hacts2
  · simp only [he, Bool.false_eq_true, if_false]
    exact hacts2

/-- C2 (counterexample): with one monitored parent at ts 10 whose thread
reply is at ts 20, followed by a monitored top-level message at ts 11, one
channel pass creates activities with timestamp trace [10, 20, 11] — not
non-decreasing, because each parent's thread replies are created before any
later top-level message. -/
theorem fetch_ts_order_cex :
    (fetch_and_store_activities chGrowth (HistoryResult.ok [pmThread, pmLater])
        Db.empty).activities.map (fun a => a.timestamp) = [10, 20, 11] ∧
    nonDecr ((fetch_and_store_activities chGrowth
        (HistoryResult.ok [pmThread, pmLater]) Db.empty).activities.map
          (fun a => a.timestamp)) = false := by
  constructor <;> decide

/-- C2 (amended): within one channel polling pass, every parent activity is
created before any of its thread-reply child activities (every parent
reference points at an activity created strictly earlier in the trace); the
created activities are NOT in general in non-decreasing platform-timestamp
order, since a thread reply with a later timestamp is created before a
subsequent top-level message with an earlier one. -/
theorem fetch_parents_before (db : Db) (channel : Channel)
    (hist : HistoryResult) (h : parentsBefore db.activities = true) :
    parentsBefore (fetch_and_store_activities channel hist db).activities
      = true := by
  cases hist with
  | ok pms =>
    rw [(fetch_ok_spec channel db pms).1]
    unfold parentsBefore at h ⊢
    rw [parentsBeforeAux_append, Bool.and_eq_true]
    exact ⟨h, parentsBeforeAux_pageNewActs _ _ _ _⟩
  | apiError e =>
    rw [fetch_apiError_activities]
    exact h

/-- C2 witness: a pass over the counterexample page from the empty database
still satisfies the parent-before-child guarantee. -/
theorem fetch_parents_before_witness :
    parentsBefore Db.empty.activities = true ∧
    parentsBefore (fetch_and_store_activities chGrowth
        (HistoryResult.ok [pmThread, pmLater]) Db.empty).activities = true :=
  ⟨by decide, fetch_parents_before Db.empty chGrowth
    (HistoryResult.ok [pmThread, pmLater]) (by decide)⟩

/-! ## Live path: onboarding gates persistence (C10) and the dialog flow (C4) -/

theorem get_or_create_team_activities (db : Db) (n c : String) :
    (get_or_create_team db n c).2.activities = db.activities := by
  unfold get_or_create_team
  cases hn : find_team_by_name db n with
  | some t =>
    by_cases hm : c ∈ t.slack_channel_ids <;> simp [hn, hm, replaceTeam]
  | none =>
    cases hc : get_team_by_slack_channel db c with
    | some t =>
      by_cases hm : c ∈ t.slack_channel_ids <;> simp [hn, hc, hm, replaceTeam]
    | none => simp [hn, hc, create_team]

theorem get_or_create_channel_activities (db : Db) (c nm : String) (tid : Nat) :
    (get_or_create_channel db c nm tid).2.activities = db.activities := by
  unfold get_or_create_channel
  cases h : db.channels.find? (fun ch => ch.slack_channel_id == c) <;> simp [h]

theorem handle_onboarding_activities (st : LiveState) (cid text info : String) :
    (handle_onboarding st cid text info).db.activities = st.db.activities := by
  unfold handle_onboarding
  cases h : obLookup st.onboarding cid with
  | none => rfl
  | some state =>
    cases hs : state.step with
    | waiting_for_assist => simp [h, hs]
    | team_name =>
      obtain ⟨team, db1, hg1⟩ : ∃ team db1,
          get_or_create_team st.db text cid = (team, db1) := ⟨_, _, rfl⟩
      obtain ⟨chn, db2, hg2⟩ : ∃ chn db2,
          get_or_create_channel db1 cid info team.id = (chn, db2) := ⟨_, _, rfl⟩
      have h1 := get_or_create_team_activities st.db text cid
      have h2 := get_or_create_channel_activities db1 cid info team.id
      simp only [hg1] at h1
      simp only [hg2] at h2
      simp only [h, hs, hg1, hg2]
      exact h2.trans h1
    | bot_accounts => simp [h, hs]

/-- C10: while an onboarding session exists for a channel, the live message
handler never persists an activity for ANY message event in that channel —
whatever the thread, the author, and the channel's registration state — so
live-path persistence can only happen when no session exists. -/
theorem handle_messages_session_no_persist (st : LiveState) (ev : Event)
    (info : String) (ob : ObState)
    (h : obLookup st.onboarding ev.channel = some ob) :
    (handle_messages st ev info).db.activities = st.db.activities := by
  unfold handle_messages
  simp only [h]
  split
  · rfl
  · split
    · exact handle_onboarding_activities st ev.channel _ info
    · rfl

/-- C10 witness: with an onboarding session for "C1" pinned to thread 100, a
monitored-bot message in a different thread (200) of the registered channel
"C1" — one the persistence filter accepts — still creates no activity. -/
theorem handle_messages_session_no_persist_witness :
    obLookup liveWithSession.onboarding "C1"
      = some ⟨ObStep.waiting_for_assist, 100, none⟩ ∧
    should_we_persist_message liveBotEvent.msg
      chGrowth.monitored_bot_accounts = true ∧
    (handle_messages liveWithSession liveBotEvent "growth").db.activities
      = liveWithSession.db.activities := by
  refine ⟨by decide, by decide, ?_⟩
  exact handle_messages_session_no_persist liveWithSession liveBotEvent "growth"
    ⟨ObStep.waiting_for_assist, 100, none⟩ (by decide)

/-- C4 (counterexample): feeding the session the three messages "please
assist", "Team Rocket", "ci-bot, release-bot" creates a team named
"team rocket", not "Team Rocket": the live handler lower-cases the message
text before using it as the team name. -/
theorem onboarding_lowercases_team_name_cex :
    obAfter2.db.teams.map (fun t => t.name) = ["team rocket"] ∧
    obAfter2.db.teams.map (fun t => t.name) ≠ ["Team Rocket"] := by
  constructor <;> decide

/-- C4 (amended): started in the awaiting-assist step and fed three
same-thread messages: a message containing "assist" moves the session to the
team-name step (database untouched); the next message "Team Rocket" creates a
team named "team rocket" — the lower-cased text — linked to the channel, and
moves to the bot-accounts step; the next message "ci-bot, release-bot" is
split on commas with whitespace trimmed, the channel's monitored accounts
become ["ci-bot", "release-bot"], and the session is removed. -/
theorem onboarding_flow :
    obLookup obAfter1.onboarding "C1" = some ⟨ObStep.team_name, 100, none⟩ ∧
    obAfter1.db = Db.empty ∧
    obAfter2.db.teams = [⟨1, "team rocket", ["C1"]⟩] ∧
    obAfter2.db.channels = [⟨1, "C1", "growth", 1, []⟩] ∧
    obLookup obAfter2.onboarding "C1"
      = some ⟨ObStep.bot_accounts, 100, some 1⟩ ∧
    obAfter3.db.channels.map (fun c => c.monitored_bot_accounts)
      = [["ci-bot", "release-bot"]] ∧
    obLookup obAfter3.onboarding "C1" = none := by
  refine ⟨?_, ?_, ?_, ?_, ?_, ?_, ?_⟩ <;> decide

end Ratchet
